import Mathlib

/-!
A shallow embedding of the EVM interpreter of this repository (the final
TypeScript source: classes State, Storage, Stack, Memory, Calldata and the
exported evm function) together with theorems checking the specification
claims against it.

Modelling conventions:
* JavaScript bigint values are modelled as Nat (they are non-negative
  everywhere in this program); all arithmetic is exact.
* The JavaScript value undefined can reach the operand stack (an
  out-of-range array read such as stack[0] on an empty stack yields
  undefined, and Stack.push accepts it because both comparisons
  value < 0n and value > MAX_UINT256 are false on undefined).  A stack or
  memory slot is therefore an Option Nat, none standing for undefined.
* Thrown JavaScript errors (explicit throw statements as well as implicit
  TypeError / SyntaxError / RangeError from operations on undefined or bad
  strings) are modelled with Except; an error aborts the whole invocation,
  exactly as an uncaught exception does in the source (there is no
  try/catch anywhere in it).
* Number(x) conversions used for loop bounds and array indices are
  modelled exactly (the float rounding of JavaScript Number is ignored;
  it is exact below 2^53).  Number(undefined) is NaN: a for loop bounded
  by NaN runs zero times, and the loop of the dispatcher terminates when
  pc becomes NaN, which we model where it occurs.
* The external primitives keccak256 and rlp.encode (explicitly
  out of scope for the specification) are parameters of the machine: a
  Config carries the Keccak-256 digest function on byte strings and the
  digest of rlp.encode([address, nonce]) used by CREATE.
-/

namespace EvmFS

/-- A JavaScript value flowing through the interpreter: a bigint, or
undefined (none). -/
abbrev JsVal := Option Nat

def MAX_UINT256 : Nat := 2 ^ 256 - 1

/-- Execution errors: the messages of the throw statements of the source,
plus the implicit JavaScript exceptions, plus an out-of-fuel marker that is
an artifact of the embedding (the source loop can run forever; every
theorem below supplies enough fuel for the run it talks about). -/
inductive Err where
  | stackUnderflow        -- "Stack underflow"
  | maxStackDepth         -- "MAX_STACK_DEPTH"
  | invalidValue          -- "Invalid value"
  | invalidOffset         -- "Invalid offset"
  | invalidByte           -- "Invalid byte"
  | invalidWord           -- "Invalid word"
  | invalidMemoryLength   -- "invalid memory length" (proved unreachable below)
  | unimplementedOpcode   -- "Unimplemented opcode"
  | typeError             -- implicit TypeError (bigint op / toString on undefined)
  | syntaxError           -- implicit SyntaxError (BigInt of a malformed string)
  | rangeError            -- implicit RangeError (BigInt of a non-integral number)
  | outOfFuel             -- embedding artifact, see above
  deriving DecidableEq, Repr

/-! ### String helpers (hex and decimal conversions used by the source) -/

/-- Value of one hex digit character, if it is one. -/
def hexDigitVal : Char → Option Nat := fun c =>
  if '0' ≤ c ∧ c ≤ '9' then some (c.toNat - 48)
  else if 'a' ≤ c ∧ c ≤ 'f' then some (c.toNat - 87)
  else if 'A' ≤ c ∧ c ≤ 'F' then some (c.toNat - 55)
  else none

/-- JavaScript parseInt(s, 16) on a two character chunk, coerced through a
Uint8Array entry (NaN becomes 0; a valid first digit followed by an invalid
character parses as the first digit alone). -/
def jsParseHexPair (c₁ c₂ : Char) : Nat :=
  match hexDigitVal c₁, hexDigitVal c₂ with
  | some h, some l => 16 * h + l
  | some h, none => h
  | none, _ => 0

/-- Model of the idiom (s.match(/../g) || []).map(b => parseInt(b, 16))
poured into a Uint8Array: consecutive character pairs, a trailing lone
character dropped. -/
def hexPairsToBytes : List Char → List Nat
  | c₁ :: c₂ :: rest => jsParseHexPair c₁ c₂ :: hexPairsToBytes rest
  | _ => []

/-- JavaScript n.toString(16) for a non-negative bigint: minimal lowercase
hex, "0" for zero. -/
def natToHex (n : Nat) : String := String.mk (Nat.toDigits 16 n)

/-- JavaScript String.prototype.padStart(len, c). -/
def padStart (s : String) (len : Nat) (c : Char) : String :=
  if s.length < len then String.mk (List.replicate (len - s.length) c) ++ s else s

/-- The hex string accumulated by loops of the shape
tmp += byte.toString(16).padStart(2, "0"). -/
def bytesToHex (bs : List Nat) : String :=
  String.join (bs.map fun b => padStart (natToHex b) 2 '0')

/-- Parse a non-empty string of hex digits (the characters after an 0x
prefix); none on a bad or empty digit string, as BigInt would throw. -/
def hexStrToNat : List Char → Option Nat
  | [] => none
  | cs => cs.foldlM (fun acc c => (hexDigitVal c).map fun d => acc * 16 + d) 0

/-- Parse a non-empty string of decimal digits. -/
def decStrToNat : List Char → Option Nat
  | [] => none
  | cs => cs.foldlM
      (fun acc c => if c.isDigit then some (acc * 10 + (c.toNat - 48)) else none) 0

/-- JavaScript BigInt(string) restricted to the shapes this program feeds
it: empty string is 0n, an 0x prefix is hex, otherwise decimal; anything
else throws a SyntaxError (modelled as none). -/
def jsBigIntOfString (s : String) : Option Nat :=
  match s.data with
  | [] => some 0
  | '0' :: 'x' :: rest => hexStrToNat rest
  | '0' :: 'X' :: rest => hexStrToNat rest
  | cs => decStrToNat cs

/-- JavaScript Number(string) for the strings this program converts
(account nonces): empty string is 0, 0x prefix is hex, decimal otherwise;
none models NaN. -/
def jsNumberOfString (s : String) : Option Nat := jsBigIntOfString s

/-! ### Stack (class Stack) -/

abbrev Stack := List JsVal

namespace Stack

/-- this.stack.shift() guarded by the underflow check. -/
def pop : Stack → Except Err (JsVal × Stack)
  | [] => .error .stackUnderflow
  | v :: rest => .ok (v, rest)

/-- Two consecutive pops, as in let a = stk.pop(); let b = stk.pop(). -/
def pop2 : Stack → Except Err (JsVal × JsVal × Stack)
  | a :: b :: rest => .ok (a, b, rest)
  | [_] => .error .stackUnderflow
  | [] => .error .stackUnderflow

def pop3 : Stack → Except Err (JsVal × JsVal × JsVal × Stack)
  | a :: b :: c :: rest => .ok (a, b, c, rest)
  | _ => .error .stackUnderflow

def pop4 : Stack → Except Err (JsVal × JsVal × JsVal × JsVal × Stack)
  | a :: b :: c :: d :: rest => .ok (a, b, c, d, rest)
  | _ => .error .stackUnderflow

def pop7 : Stack →
    Except Err (JsVal × JsVal × JsVal × JsVal × JsVal × JsVal × JsVal × Stack)
  | a :: b :: c :: d :: e :: f :: g :: rest => .ok (a, b, c, d, e, f, g, rest)
  | _ => .error .stackUnderflow

/-- Stack.push.  The range guard value < 0n || value > MAX_UINT256 is false
when value is undefined, so undefined slips through it; then the depth
guard, then unshift. -/
def push (stk : Stack) (value : JsVal) : Except Err Stack :=
  if value.any fun v => MAX_UINT256 < v then .error .invalidValue
  else if 1024 < stk.length + 1 then .error .maxStackDepth
  else .ok (value :: stk)

end Stack

/-- A bigint operation applied to a JsVal: on undefined it throws a
TypeError. -/
def asBig : JsVal → Except Err Nat
  | some v => .ok v
  | none => .error .typeError

/-- Both operands of a binary bigint operation. -/
def asBig2 (a b : JsVal) : Except Err (Nat × Nat) := do
  let x ← asBig a
  let y ← asBig b
  pure (x, y)

/-- JavaScript a < b on JsVals: any comparison involving undefined is
false. -/
def jsLt (a b : JsVal) : Bool :=
  match a, b with
  | some x, some y => x < y
  | _, _ => false

/-- JavaScript a > b on JsVals. -/
def jsGt (a b : JsVal) : Bool :=
  match a, b with
  | some x, some y => y < x
  | _, _ => false

/-- BigInt.asIntN(32, v): the low 32 bits reinterpreted as a signed
two's-complement integer. -/
def asIntN32 (v : Nat) : Int :=
  let m : Nat := v % 2 ^ 32
  if m < 2 ^ 31 then (m : Int) else (m : Int) - 2 ^ 32

/-- JavaScript x & MAX_UINT256 on a possibly negative bigint x: bitwise and
with 2^256 - 1 under the infinite two's-complement view, i.e. the
non-negative residue modulo 2^256. -/
def jsAnd256 (x : Int) : Nat := (x.emod (2 ^ 256)).toNat

/-- Number(c) used as a for-loop bound: undefined gives NaN and the loop
runs zero times. -/
def jsCount (c : JsVal) : Nat := c.getD 0

/-! ### Memory (class Memory) -/

/-- The backing array of class Memory.  Entries are written as bigints
everywhere except by MSTORE8, whose value guard also lets undefined
through; hence JsVal entries. -/
abbrev Memory := List JsVal

namespace Memory

def size (m : Memory) : Nat := m.length

/-- check_expand: grow to the next multiple of 32 covering offset, filling
with zero bytes.  The final length-is-a-multiple-of-32 assertion of the
source is provably never triggered (lemma check_expand_assert_ok below),
so the function is total here. -/
def check_expand (m : Memory) (offset : Nat) : Memory :=
  if offset < m.length then m
  else m ++ List.replicate ((offset / 32 + 1) * 32 - m.length) (some 0)

/-- Memory.store (MSTORE8).  Guards as in the source; with an undefined
offset both range comparisons are false and check_expand then throws a
TypeError at offset / 32n. -/
def store (m : Memory) (offset value : JsVal) : Except Err Memory :=
  if offset.any fun o => MAX_UINT256 < o then .error .invalidOffset
  else if value.any fun v => 255 < v then .error .invalidByte
  else match offset with
    | none => .error .typeError
    | some o => .ok ((check_expand m o).set o value)

/-- The write loop of store_word: for i in 0..n-1 set
memory[offset + 31 - i] to (value & (0xff << 8 i)) >> 8 i. -/
def storeBytes (m : Memory) (offset value : Nat) : Nat → Memory
  | 0 => m
  | i + 1 =>
      (storeBytes m offset value i).set (offset + 31 - i)
        (some ((value &&& (0xff <<< (i * 8))) >>> (i * 8)))

/-- Memory.store_word (MSTORE): guards, expansion covering offset + 31,
then the 32 byte big-endian write loop.  With an undefined offset the
addition offset + 31n throws; with an undefined value the masking inside
the loop throws. -/
def store_word (m : Memory) (offset value : JsVal) : Except Err Memory :=
  if offset.any fun o => MAX_UINT256 < o then .error .invalidOffset
  else if value.any fun v => MAX_UINT256 < v then .error .invalidWord
  else match offset, value with
    | some o, some v => .ok (storeBytes (check_expand m (o + 31)) o v 32)
    | _, _ => .error .typeError

/-- The read loop of load: a hex string is accumulated over the 32 entries
at offset..offset+31 and parsed back; since every entry written by this
class is a byte below 256 rendered as exactly two hex characters, the
string concatenation is base-256 accumulation.  An entry holding undefined
throws at undefined.toString(16). -/
def loadAcc (m : Memory) (offset : Nat) : Nat → Except Err Nat
  | 0 => .ok 0
  | n + 1 => do
      let acc ← loadAcc m offset n
      match m.getD (offset + n) none with
      | some b => pure (acc * 256 + b)
      | none => .error .typeError

/-- Memory.load (MLOAD): guard, expansion covering offset + 31 (a real
state change, hence the expanded memory is returned too), 32 byte
big-endian read. -/
def load (m : Memory) (offset : JsVal) : Except Err (Nat × Memory) :=
  if offset.any fun o => MAX_UINT256 < o then .error .invalidOffset
  else match offset with
    | none => .error .typeError
    | some o => do
        let m' := check_expand m (o + 31)
        let v ← loadAcc m' o 32
        pure (v, m')

/-- Memory.load_byte: in-range reads return the entry (BigInt(undefined)
throws if the entry is a hole), out-of-range reads return 0 without
expanding.  An undefined or NaN offset compares false against the size
and also returns 0. -/
def load_byte (m : Memory) (offset : JsVal) : Except Err Nat :=
  match offset with
  | some o =>
      if o < m.length then
        match m.getD o none with
        | some b => .ok b
        | none => .error .typeError
      else .ok 0
  | none => .ok 0

/-- A loop of count calls load_byte(start++), as used by RETURN, REVERT,
CREATE and CALL.  When start is undefined it stays NaN through the
increments and every read returns 0. -/
def load_byte_seq (m : Memory) (start : JsVal) (count : Nat) : Except Err (List Nat) :=
  match start with
  | none => .ok (List.replicate count 0)
  | some o => (List.range count).mapM fun i => load_byte m (some (o + i))

end Memory

/-! ### Storage (class Storage) -/

/-- A JavaScript Map from bigint keys to bigint values; SSTORE can feed it
undefined as key or value, so both sides are JsVal.  The map itself is a
function to Option (stored entry). -/
def Storage := JsVal → Option JsVal

namespace Storage

def empty : Storage := fun _ => none

def store (st : Storage) (key value : JsVal) : Storage :=
  fun k => if k = key then some value else st k

/-- Storage.load: value === undefined ? 0n : value, covering both a
missing key and a stored undefined. -/
def load (st : Storage) (key : JsVal) : Nat :=
  match st key with
  | some (some v) => v
  | _ => 0

end Storage

/-! ### Calldata (class Calldata) -/

abbrev Calldata := List Nat

namespace Calldata

/-- Calldata.init: hex string to bytes. -/
def init (data : String) : Calldata := hexPairsToBytes data.data

def size (cd : Calldata) : Nat := cd.length

/-- The 32 iteration read loop of Calldata.load: bytes past the end
contribute "00". -/
def loadAcc (cd : Calldata) (offset : Nat) : Nat → Nat
  | 0 => 0
  | n + 1 =>
      loadAcc cd offset n * 256 +
        (if offset + n < cd.length then cd.getD (offset + n) 0 else 0)

/-- Calldata.load (CALLDATALOAD): guard, then a zero-extended 32 byte
big-endian read.  An undefined offset throws at offset + 32n. -/
def load (cd : Calldata) (offset : JsVal) : Except Err Nat :=
  if offset.any fun o => MAX_UINT256 < o then .error .invalidOffset
  else match offset with
    | none => .error .typeError
    | some o => .ok (loadAcc cd o 32)

/-- Calldata.load_byte: 0 past the end; an undefined or NaN offset
compares false against the size and returns 0. -/
def load_byte (cd : Calldata) (offset : JsVal) : Nat :=
  match offset with
  | some o => if o < cd.length then cd.getD o 0 else 0
  | none => 0

end Calldata

/-! ### World state (class State) -/

/-- interface AccountState. -/
structure AccountState where
  balance : String
  codeAsm : String
  codeBin : String
  nonce : String
  storage : String
  deriving DecidableEq, Repr

/-- The default record returned by State.accountState for a missing
address. -/
def AccountState.default : AccountState :=
  { balance := "0x00", codeAsm := "", codeBin := "", nonce := "0x00", storage := "0x00" }

/-- The worldState Map of class State, as an association list whose most
recent insertion comes first (Map.set replaces, Map.get returns the latest
binding; only get and set are used). -/
abbrev WorldState := List (String × AccountState)

namespace State

/-- Map.set. -/
def set (ws : WorldState) (key : String) (value : AccountState) : WorldState :=
  (key, value) :: ws

/-- Map.get. -/
def get? (ws : WorldState) (key : String) : Option AccountState :=
  ws.lookup key

/-- State.init: insert every entry of the snapshot in order. -/
def init (ws0 : WorldState) : WorldState :=
  ws0.foldl (fun acc kv => set acc kv.1 kv.2) []

/-- State.createAccount. -/
def createAccount (ws : WorldState) (key : String) (value : AccountState) : WorldState :=
  set ws key value

/-- State.accountState: the stored record or the zero default. -/
def accountState (ws : WorldState) (address : String) : AccountState :=
  (get? ws address).getD AccountState.default

end State

end EvmFS

namespace EvmFS

/-! ### Transaction, block, return envelope, machine -/

/-- interface Transaction.  The fields to and from of the source are
spelled to_ and from_ here (Lean reserved words). -/
structure Tx where
  to_ : String
  from_ : String
  origin : String
  gasprice : String
  value : String
  data : String
  deriving DecidableEq, Repr

/-- interface Block. -/
structure Block where
  coinbase : String
  timestamp : String
  number : String
  difficulty : String
  gaslimit : String
  chainid : String
  deriving DecidableEq, Repr

/-- interface ReturnData.  The field return of the source is spelled ret
here (a Lean keyword). -/
structure ReturnData where
  success : Option Bool
  ret : Option String
  deriving DecidableEq, Repr

/-- The result of one evm invocation: the final operand stack and the
return envelope. -/
structure EvmResult where
  stack : Stack
  returnData : ReturnData
  deriving DecidableEq, Repr

/-- The mutable state of one invocation of the interpreter: the Stack,
Memory, Storage and State instances, the calldata view and the return
envelope under construction. -/
structure Machine where
  stack : Stack
  memory : Memory
  storage : Storage
  state : WorldState
  calldata : Calldata
  returnData : ReturnData

/-- The external primitives (out of scope for the specification): the
Keccak-256 digest of a byte string as a 256-bit number, and the digest of
keccak256(rlp.encode([address, nonce])) used by CREATE (the nonce is an
Option because Number() of a malformed nonce string is NaN). -/
structure Config where
  keccak : List Nat → Nat
  createDigest : String → Option Nat → Nat

/-- What one iteration of the dispatch loop does: either the handler ended
in break and the loop continues from pc + 1 after the reassignments of the
handler (next carries the pc value BEFORE the increment of the loop), or a
return statement ran. -/
inductive StepRes where
  | next (pc : Nat) (mc : Machine)
  | done (r : EvmResult)

/-- Reading a field of the transaction object throws a TypeError when the
tx argument is undefined. -/
def reqTx : Option Tx → Except Err Tx
  | some t => .ok t
  | none => .error .typeError

/-- Reading a field of the block object throws a TypeError when the block
argument is undefined. -/
def reqBlock : Option Block → Except Err Block
  | some b => .ok b
  | none => .error .typeError

/-- BigInt(s) raising SyntaxError on a malformed string. -/
def jsBigIntE (s : String) : Except Err Nat :=
  match jsBigIntOfString s with
  | some v => .ok v
  | none => .error .syntaxError

/-- A JavaScript array write arr[i] = v: past the current length the array
grows, the gap filled with holes that read back as undefined. -/
def jsArraySet (l : List JsVal) (i : Nat) (v : JsVal) : List JsVal :=
  if i < l.length then l.set i v
  else l ++ List.replicate (i - l.length) none ++ [v]

/-- The SWAPn handler body: tmp = stack[n]; stack[n] = stack[0];
stack[0] = tmp; out-of-range reads give undefined. -/
def swapJs (stk : Stack) (n : Nat) : Stack :=
  let tmp := stk.getD n none
  let s₁ := jsArraySet stk n (stk.getD 0 none)
  jsArraySet s₁ 0 tmp

/-- The copy loops of CALLDATACOPY, CODECOPY, EXTCODECOPY and CALL:
count iterations of mem.store(dest++, byteAt i).  With an undefined dest
and a positive count the first store throws inside check_expand. -/
def memStoreLoop (m : Memory) (dest : JsVal) (count : Nat) (byteAt : Nat → Nat) :
    Except Err Memory :=
  (List.range count).foldlM
    (fun acc i => Memory.store acc (dest.map (· + i)) (some (byteAt i))) m

/-- The byte string the SHA3 handler feeds to keccak256: the loaded
32-byte word is shifted by (32 - size) * 8 bits (a negative shift count
shifts left), rendered with toString(16) (minimal hex, leading zeros
lost), and the keccak256 package hex-decodes that string. -/
def sha3Input (value size : Nat) : List Nat :=
  let bytesToHash : Nat :=
    if size ≤ 32 then value >>> ((32 - size) * 8)
    else value <<< ((size - 32) * 8)
  hexPairsToBytes (natToHex bytesToHash).data

/-- The immediate of PUSHn read by the hex-accumulation loop of the
source; code bytes are below 256 so the concatenation of two-character
chunks is base-256 accumulation. -/
def codeBytesBE (code : List Nat) (start : Nat) : Nat → Nat
  | 0 => 0
  | k + 1 => codeBytesBE code start k * 256 + code.getD (start + k) 0

/-- Push v and continue at the same pc (the loop adds one). -/
def pushCont (pc : Nat) (mc : Machine) (s : Stack) (v : JsVal) : Except Err StepRes := do
  let s' ← s.push v
  pure (.next pc { mc with stack := s' })

/-- The PUSHn handler: n immediate bytes via code[++pc].  Reading past the
end of code yields undefined and BigInt(undefined) respectively
undefined.toString(16) throw a TypeError. -/
def pushOp (code : List Nat) (pc n : Nat) (mc : Machine) : Except Err StepRes :=
  if pc + n < code.length then do
    let s ← mc.stack.push (some (codeBytesBE code (pc + 1) n))
    pure (.next (pc + n) { mc with stack := s })
  else .error .typeError

/-- The DUPn handler: stk.push(stk.stack[n-1]); the out-of-range read
gives undefined, which the push guard does not reject. -/
def dupOp (n pc : Nat) (mc : Machine) : Except Err StepRes := do
  let s ← mc.stack.push (mc.stack.getD (n - 1) none)
  pure (.next pc { mc with stack := s })

/-- The SWAPn handler. -/
def swapOp (n pc : Nat) (mc : Machine) : Except Err StepRes :=
  pure (.next pc { mc with stack := swapJs mc.stack n })

end EvmFS

namespace EvmFS

/-- One iteration of the fetch-decode-dispatch loop of the evm function:
the switch on code[pc].  subEvm is the recursive invocation used by CREATE
and CALL; code, tx, ws0 (the _state argument) and blk are the four
parameters of the invocation; pc and mc the current loop state. -/
def step (cfg : Config)
    (subEvm : List Nat → Option Tx → Option WorldState → Option Block →
      Except Err EvmResult)
    (code : List Nat) (tx : Option Tx) (ws0 : Option WorldState)
    (blk : Option Block) (pc : Nat) (mc : Machine) : Except Err StepRes :=
  match code.getD pc 0 with
  -- STOP: success is set only when this is the final byte of code
  | 0x00 =>
      .ok (.done
        { stack := mc.stack,
          returnData :=
            if pc = code.length - 1 then { mc.returnData with success := some true }
            else mc.returnData })
  -- ADD
  | 0x01 => do
      let (a, b, s) ← mc.stack.pop2
      let (x, y) ← asBig2 a b
      pushCont pc mc s (some ((x + y) &&& MAX_UINT256))
  -- MUL
  | 0x02 => do
      let (a, b, s) ← mc.stack.pop2
      let (x, y) ← asBig2 a b
      pushCont pc mc s (some ((x * y) &&& MAX_UINT256))
  -- SUB: the difference may be negative; & MAX_UINT256 reduces mod 2^256
  | 0x03 => do
      let (a, b, s) ← mc.stack.pop2
      let (x, y) ← asBig2 a b
      pushCont pc mc s (some (jsAnd256 ((x : Int) - (y : Int))))
  -- DIV
  | 0x04 => do
      let (a, b, s) ← mc.stack.pop2
      let (x, y) ← asBig2 a b
      pushCont pc mc s (some (if y = 0 then 0 else (x / y) &&& MAX_UINT256))
  -- SDIV: note the 32-bit (not 256-bit) signed narrowing of the source;
  -- BigInt.asIntN is applied to each pop before the next pop
  | 0x05 => do
      let (a, s) ← mc.stack.pop
      let x ← asBig a
      let (b, s) ← s.pop
      let y ← asBig b
      pushCont pc mc s
        (some (if asIntN32 y = 0 then 0 else jsAnd256 ((asIntN32 x).tdiv (asIntN32 y))))
  -- MOD
  | 0x06 => do
      let (a, b, s) ← mc.stack.pop2
      let (x, y) ← asBig2 a b
      pushCont pc mc s (some (if y = 0 then 0 else (x % y) &&& MAX_UINT256))
  -- SMOD: 32-bit narrowing as in SDIV; JavaScript % truncates (sign of
  -- the dividend)
  | 0x07 => do
      let (a, s) ← mc.stack.pop
      let x ← asBig a
      let (b, s) ← s.pop
      let y ← asBig b
      pushCont pc mc s
        (some (if asIntN32 y = 0 then 0 else jsAnd256 ((asIntN32 x).tmod (asIntN32 y))))
  -- LT (comparisons involving undefined are false, no TypeError)
  | 0x10 => do
      let (a, b, s) ← mc.stack.pop2
      pushCont pc mc s (some (if jsLt a b then 1 else 0))
  -- GT
  | 0x11 => do
      let (a, b, s) ← mc.stack.pop2
      pushCont pc mc s (some (if jsGt a b then 1 else 0))
  -- SLT: 32-bit narrowing as in SDIV
  | 0x12 => do
      let (a, s) ← mc.stack.pop
      let x ← asBig a
      let (b, s) ← s.pop
      let y ← asBig b
      pushCont pc mc s (some (if asIntN32 x < asIntN32 y then 1 else 0))
  -- SGT
  | 0x13 => do
      let (a, s) ← mc.stack.pop
      let x ← asBig a
      let (b, s) ← s.pop
      let y ← asBig b
      pushCont pc mc s (some (if asIntN32 y < asIntN32 x then 1 else 0))
  -- EQ: === on two JsVals (undefined === undefined is true)
  | 0x14 => do
      let (a, b, s) ← mc.stack.pop2
      pushCont pc mc s (some (if a = b then 1 else 0))
  -- ISZERO
  | 0x15 => do
      let (a, s) ← mc.stack.pop
      pushCont pc mc s (some (if a = some 0 then 1 else 0))
  -- AND
  | 0x16 => do
      let (a, b, s) ← mc.stack.pop2
      let (x, y) ← asBig2 a b
      pushCont pc mc s (some (x &&& y))
  -- OR
  | 0x17 => do
      let (a, b, s) ← mc.stack.pop2
      let (x, y) ← asBig2 a b
      pushCont pc mc s (some (x ||| y))
  -- XOR
  | 0x18 => do
      let (a, b, s) ← mc.stack.pop2
      let (x, y) ← asBig2 a b
      pushCont pc mc s (some (x ^^^ y))
  -- NOT
  | 0x19 => do
      let (a, s) ← mc.stack.pop
      let x ← asBig a
      pushCont pc mc s (some (MAX_UINT256 ^^^ x))
  -- BYTE: a < 32n is false for undefined a; only then is b touched
  | 0x1a => do
      let (a, b, s) ← mc.stack.pop2
      match a with
      | some x =>
          if x < 32 then do
            let y ← asBig b
            pushCont pc mc s (some ((y >>> ((31 - x) * 8)) &&& 0xff))
          else pushCont pc mc s (some 0)
      | none => pushCont pc mc s (some 0)
  -- SHA3: one 32-byte word is loaded (expanding memory), shifted, turned
  -- into a minimal hex string and hex-decoded by the keccak256 package
  | 0x20 => do
      let (a, b, s) ← mc.stack.pop2
      let (v, m') ← Memory.load mc.memory a
      let sz ← asBig b
      let s' ← s.push (some (cfg.keccak (sha3Input v sz)))
      pure (.next pc { mc with stack := s', memory := m' })
  -- ADDRESS
  | 0x30 => do
      let t ← reqTx tx
      let v ← jsBigIntE t.to_
      pushCont pc mc mc.stack (some v)
  -- BALANCE
  | 0x31 => do
      let (a, s) ← mc.stack.pop
      let x ← asBig a
      let address := "0x" ++ padStart (natToHex x) 40 '0'
      let v ← jsBigIntE (State.accountState mc.state address).balance
      pushCont pc mc s (some v)
  -- ORIGIN
  | 0x32 => do
      let t ← reqTx tx
      let v ← jsBigIntE t.origin
      pushCont pc mc mc.stack (some v)
  -- CALLER
  | 0x33 => do
      let t ← reqTx tx
      let v ← jsBigIntE t.from_
      pushCont pc mc mc.stack (some v)
  -- CALLVALUE
  | 0x34 => do
      let t ← reqTx tx
      let v ← jsBigIntE t.value
      pushCont pc mc mc.stack (some v)
  -- CALLDATALOAD
  | 0x35 => do
      let (a, s) ← mc.stack.pop
      let v ← Calldata.load mc.calldata a
      pushCont pc mc s (some v)
  -- CALLDATASIZE
  | 0x36 => pushCont pc mc mc.stack (some mc.calldata.length)
  -- CALLDATACOPY
  | 0x37 => do
      let (a, b, c, s) ← mc.stack.pop3
      let m' ← memStoreLoop mc.memory a (jsCount c)
        (fun i => Calldata.load_byte mc.calldata (b.map (· + i)))
      pure (.next pc { mc with stack := s, memory := m' })
  -- CODESIZE
  | 0x38 => pushCont pc mc mc.stack (some code.length)
  -- CODECOPY: bytes past the end of code are stored as 0
  | 0x39 => do
      let (a, b, c, s) ← mc.stack.pop3
      let m' ← memStoreLoop mc.memory a (jsCount c)
        (fun i => match b with
          | some bb => code.getD (bb + i) 0
          | none => 0)
      pure (.next pc { mc with stack := s, memory := m' })
  -- GASPRICE
  | 0x3a => do
      let t ← reqTx tx
      let v ← jsBigIntE t.gasprice
      pushCont pc mc mc.stack (some v)
  -- EXTCODESIZE: BigInt(length / 2) throws a RangeError when the hex
  -- string has odd length
  | 0x3b => do
      let (a, s) ← mc.stack.pop
      let x ← asBig a
      let address := "0x" ++ padStart (natToHex x) 40 '0'
      let len := (State.accountState mc.state address).codeBin.length
      if len % 2 = 0 then pushCont pc mc s (some (len / 2))
      else .error .rangeError
  -- EXTCODECOPY
  | 0x3c => do
      let (a, b, c, d, s) ← mc.stack.pop4
      let x ← asBig a
      let address := "0x" ++ padStart (natToHex x) 40 '0'
      let codeArr := hexPairsToBytes (State.accountState mc.state address).codeBin.data
      let m' ← memStoreLoop mc.memory b (jsCount d)
        (fun i => match c with
          | some cc => codeArr.getD (cc + i) 0
          | none => 0)
      pure (.next pc { mc with stack := s, memory := m' })
  -- COINBASE
  | 0x41 => do
      let bk ← reqBlock blk
      let v ← jsBigIntE bk.coinbase
      pushCont pc mc mc.stack (some v)
  -- TIMESTAMP
  | 0x42 => do
      let bk ← reqBlock blk
      let v ← jsBigIntE bk.timestamp
      pushCont pc mc mc.stack (some v)
  -- NUMBER
  | 0x43 => do
      let bk ← reqBlock blk
      let v ← jsBigIntE bk.number
      pushCont pc mc mc.stack (some v)
  -- DIFFICULTY
  | 0x44 => do
      let bk ← reqBlock blk
      let v ← jsBigIntE bk.difficulty
      pushCont pc mc mc.stack (some v)
  -- GASLIMIT
  | 0x45 => do
      let bk ← reqBlock blk
      let v ← jsBigIntE bk.gaslimit
      pushCont pc mc mc.stack (some v)
  -- CHAINID
  | 0x46 => do
      let bk ← reqBlock blk
      let v ← jsBigIntE bk.chainid
      pushCont pc mc mc.stack (some v)
  -- SELFBALANCE
  | 0x47 => do
      let t ← reqTx tx
      let v ← jsBigIntE (State.accountState mc.state t.to_).balance
      pushCont pc mc mc.stack (some v)
  -- POP
  | 0x50 => do
      let (_, s) ← mc.stack.pop
      pure (.next pc { mc with stack := s })
  -- MLOAD (the expansion performed by load is kept)
  | 0x51 => do
      let (a, s) ← mc.stack.pop
      let (v, m') ← Memory.load mc.memory a
      let s' ← s.push (some v)
      pure (.next pc { mc with stack := s', memory := m' })
  -- MSTORE
  | 0x52 => do
      let (a, b, s) ← mc.stack.pop2
      let m' ← Memory.store_word mc.memory a b
      pure (.next pc { mc with stack := s, memory := m' })
  -- MSTORE8
  | 0x53 => do
      let (a, b, s) ← mc.stack.pop2
      let m' ← Memory.store mc.memory a b
      pure (.next pc { mc with stack := s, memory := m' })
  -- SLOAD
  | 0x54 => do
      let (a, s) ← mc.stack.pop
      pushCont pc mc s (some (Storage.load mc.storage a))
  -- SSTORE
  | 0x55 => do
      let (a, b, s) ← mc.stack.pop2
      pure (.next pc { mc with stack := s, storage := Storage.store mc.storage a b })
  -- JUMP: pc is assigned the destination and the loop increment follows,
  -- so the next fetched byte is code[dest + 1]; an undefined destination
  -- makes pc NaN and the loop condition false, ending the invocation
  | 0x56 => do
      let (a, s) ← mc.stack.pop
      match a with
      | some dest => pure (.next dest { mc with stack := s })
      | none => pure (.done { stack := s, returnData := mc.returnData })
  -- JUMPI: undefined !== 0n, so an undefined condition jumps
  | 0x57 => do
      let (a, b, s) ← mc.stack.pop2
      if b ≠ some 0 then
        match a with
        | some dest => pure (.next dest { mc with stack := s })
        | none => pure (.done { stack := s, returnData := mc.returnData })
      else pure (.next pc { mc with stack := s })
  -- PC
  | 0x58 => pushCont pc mc mc.stack (some pc)
  -- MSIZE
  | 0x59 => pushCont pc mc mc.stack (some mc.memory.length)
  -- JUMPDEST
  | 0x5b => pure (.next pc mc)
  -- PUSH1 .. PUSH32
  | 0x60 => pushOp code pc 1 mc
  | 0x61 => pushOp code pc 2 mc
  | 0x62 => pushOp code pc 3 mc
  | 0x63 => pushOp code pc 4 mc
  | 0x64 => pushOp code pc 5 mc
  | 0x65 => pushOp code pc 6 mc
  | 0x66 => pushOp code pc 7 mc
  | 0x67 => pushOp code pc 8 mc
  | 0x68 => pushOp code pc 9 mc
  | 0x69 => pushOp code pc 10 mc
  | 0x6a => pushOp code pc 11 mc
  | 0x6b => pushOp code pc 12 mc
  | 0x6c => pushOp code pc 13 mc
  | 0x6d => pushOp code pc 14 mc
  | 0x6e => pushOp code pc 15 mc
  | 0x6f => pushOp code pc 16 mc
  | 0x70 => pushOp code pc 17 mc
  | 0x71 => pushOp code pc 18 mc
  | 0x72 => pushOp code pc 19 mc
  | 0x73 => pushOp code pc 20 mc
  | 0x74 => pushOp code pc 21 mc
  | 0x75 => pushOp code pc 22 mc
  | 0x76 => pushOp code pc 23 mc
  | 0x77 => pushOp code pc 24 mc
  | 0x78 => pushOp code pc 25 mc
  | 0x79 => pushOp code pc 26 mc
  | 0x7a => pushOp code pc 27 mc
  | 0x7b => pushOp code pc 28 mc
  | 0x7c => pushOp code pc 29 mc
  | 0x7d => pushOp code pc 30 mc
  | 0x7e => pushOp code pc 31 mc
  | 0x7f => pushOp code pc 32 mc
  -- DUP1 .. DUP5
  | 0x80 => dupOp 1 pc mc
  | 0x81 => dupOp 2 pc mc
  | 0x82 => dupOp 3 pc mc
  | 0x83 => dupOp 4 pc mc
  | 0x84 => dupOp 5 pc mc
  -- SWAP1 .. SWAP3
  | 0x90 => swapOp 1 pc mc
  | 0x91 => swapOp 2 pc mc
  | 0x92 => swapOp 3 pc mc
  -- CREATE: the account is inserted whether or not the sub-invocation
  -- succeeded; the sub-invocation receives the PARENT transaction and the
  -- original _state argument
  | 0xf0 => do
      let (a, s) ← mc.stack.pop
      let (b, s) ← s.pop
      let (c, s) ← s.pop
      let t ← reqTx tx
      let nonce := jsNumberOfString (State.accountState mc.state t.to_).nonce
      let digest := cfg.createDigest t.to_ nonce
      -- keccak256(rlp.encode([tx.to, nonce])).toString("hex").slice(24):
      -- the low 20 bytes of the digest as 40 zero-padded hex characters
      let address := "0x" ++ padStart (natToHex (digest % 2 ^ 160)) 40 '0'
      let creationBytes ← Memory.load_byte_seq mc.memory b (jsCount c)
      let codeAsBytes := hexPairsToBytes (bytesToHex creationBytes).data
      let result ← subEvm codeAsBytes tx ws0 blk
      let av ← asBig a
      let createState : AccountState :=
        { balance := Nat.repr av, codeAsm := "",
          codeBin := match result.returnData.ret with
            | some r => r
            | none => "0x00",
          nonce := "0x00", storage := "0x00" }
      let state' := State.createAccount mc.state address createState
      let pv ← if result.returnData.success = some false then pure 0
        else jsBigIntE address
      let s' ← s.push (some pv)
      pure (.next pc { mc with stack := s', state := state' })
  -- CALL: no try/catch around the sub-invocation; the gas operand is
  -- popped and discarded
  | 0xf1 => do
      let (a, s) ← mc.stack.pop
      let (b, s) ← s.pop
      let (c, s) ← s.pop
      let (d, s) ← s.pop
      let (e, s) ← s.pop
      let (f, s) ← s.pop
      let (g, s) ← s.pop
      let _ ← pure a
      let callBytes ← Memory.load_byte_seq mc.memory d (jsCount e)
      let subCallAsString := bytesToHex callBytes
      let bv ← asBig b
      let cv ← asBig c
      let subTx : Tx :=
        { to_ := "0x" ++ padStart (natToHex bv) 40 '0',
          from_ := match tx with
            | some t => t.to_
            | none => "0x00",
          origin := match tx with
            | some t => t.origin
            | none => "0x00",
          gasprice := match tx with
            | some t => t.gasprice
            | none => "0x00",
          value := natToHex cv,   -- no 0x prefix in the source
          data := subCallAsString }
      let address := padStart (natToHex bv) 40 '0'
      let subCode := hexPairsToBytes
        (State.accountState mc.state ("0x" ++ address)).codeBin.data
      let result ← subEvm subCode (some subTx) ws0 blk
      let returnAsBytes := hexPairsToBytes
        (match result.returnData.ret with
          | some r => r
          | none => "").data
      let m' ← memStoreLoop mc.memory f (jsCount g) (fun i => returnAsBytes.getD i 0)
      let s' ← s.push (some (if result.returnData.success = some true then 1 else 0))
      pure (.next pc { mc with stack := s', memory := m' })
  -- RETURN
  | 0xf3 => do
      let (a, s) ← mc.stack.pop
      let (b, s) ← s.pop
      let bytes ← Memory.load_byte_seq mc.memory a (jsCount b)
      pure (.done
        { stack := s,
          returnData := { success := some true, ret := some (bytesToHex bytes) } })
  -- REVERT
  | 0xfd => do
      let (a, s) ← mc.stack.pop
      let (b, s) ← s.pop
      let bytes ← Memory.load_byte_seq mc.memory a (jsCount b)
      pure (.done
        { stack := s,
          returnData := { success := some false, ret := some (bytesToHex bytes) } })
  -- default case for non implemented opcodes
  | _ => .error .unimplementedOpcode

/-- The machine at the start of an invocation: everything fresh; the world
state is initialised from the _state argument when that is defined, the
calldata from tx.data when tx is defined. -/
def initMachine (tx : Option Tx) (ws0 : Option WorldState) : Machine :=
  { stack := [], memory := [], storage := Storage.empty,
    state := match ws0 with
      | some w => State.init w
      | none => [],
    calldata := match tx with
      | some t => Calldata.init t.data
      | none => [],
    returnData := { success := none, ret := none } }

/-- The dispatch loop: while pc < code.length run one step; falling off
the end returns the stack and the envelope so far.  The fuel argument
only bounds the number of iterations and the recursion depth (the source
can loop forever); it is threaded to sub-invocations. -/
def evmLoop (cfg : Config) :
    Nat → List Nat → Option Tx → Option WorldState → Option Block →
      Nat → Machine → Except Err EvmResult
  | 0, _, _, _, _, _, _ => .error .outOfFuel
  | fuel + 1, code, tx, ws0, blk, pc, mc =>
      if pc < code.length then
        match step cfg
            (fun c t w b => evmLoop cfg fuel c t w b 0 (initMachine t w))
            code tx ws0 blk pc mc with
        | .error e => .error e
        | .ok (.done r) => .ok r
        | .ok (.next pc' mc') => evmLoop cfg fuel code tx ws0 blk (pc' + 1) mc'
      else .ok { stack := mc.stack, returnData := mc.returnData }

/-- The exported evm function: fresh machine, loop from pc 0. -/
def evm (cfg : Config) (fuel : Nat) (code : List Nat) (tx : Option Tx)
    (ws0 : Option WorldState) (blk : Option Block) : Except Err EvmResult :=
  evmLoop cfg fuel code tx ws0 blk 0 (initMachine tx ws0)

end EvmFS

namespace EvmFS

namespace Memory

theorem check_expand_length (m : Memory) (o : Nat) :
    (check_expand m o).length =
      if o < m.length then m.length else (o / 32 + 1) * 32 := by
  unfold check_expand
  split
  · rfl
  · have h1 := Nat.div_add_mod o 32
    have h2 : o % 32 < 32 := Nat.mod_lt _ (by norm_num)
    simp only [List.length_append, List.length_replicate]
    omega

theorem lt_check_expand_length (m : Memory) (o : Nat) :
    o < (check_expand m o).length := by
  rw [check_expand_length]
  have h1 := Nat.div_add_mod o 32
  have h2 : o % 32 < 32 := Nat.mod_lt _ (by norm_num)
  split <;> omega

theorem check_expand_eq_self {m : Memory} {o : Nat} (h : o < m.length) :
    check_expand m o = m := by
  unfold check_expand
  exact if_pos h

theorem check_expand_mod32 {m : Memory} (o : Nat) (hm : m.length % 32 = 0) :
    (check_expand m o).length % 32 = 0 := by
  rw [check_expand_length]
  split
  · exact hm
  · simp [Nat.mul_mod_left]

/-- The final assertion of check_expand (length must be a multiple of 32
after an expansion) can never fire: either the memory is untouched or the
new length is a multiple of 32. -/
theorem check_expand_assert_ok (m : Memory) (o : Nat) :
    check_expand m o = m ∨ (check_expand m o).length % 32 = 0 := by
  by_cases h : o < m.length
  · exact .inl (check_expand_eq_self h)
  · refine .inr ?_
    rw [check_expand_length]
    simp [if_neg h, Nat.mul_mod_left]

theorem check_expand_getD_lt {m : Memory} {i : Nat} (o : Nat) (d : JsVal)
    (h : i < m.length) : (check_expand m o).getD i d = m.getD i d := by
  unfold check_expand
  split
  · rfl
  · exact List.getD_append _ _ _ _ h

theorem storeBytes_length (m : Memory) (o v : Nat) :
    ∀ n, (storeBytes m o v n).length = m.length := by
  intro n
  induction n with
  | zero => rfl
  | succ k ih => simp [storeBytes, List.length_set, ih]

theorem and_shift_mask (w s : Nat) :
    (w &&& (0xff <<< s)) >>> s = w / 2 ^ s % 256 := by
  have h255 : (0xff : Nat) = 2 ^ 8 - 1 := rfl
  have h256 : (256 : Nat) = 2 ^ 8 := rfl
  apply Nat.eq_of_testBit_eq
  intro i
  rw [h255, h256, ← Nat.shiftRight_eq_div_pow]
  simp only [Nat.testBit_shiftRight, Nat.testBit_and, Nat.testBit_shiftLeft,
    Nat.testBit_mod_two_pow, Nat.testBit_two_pow_sub_one]
  have hle : s ≤ s + i := Nat.le_add_right s i
  simp [hle, Nat.add_sub_cancel_left]
  cases hwb : w.testBit (s + i) <;> cases hdec : (decide (i < 8)) <;> simp

theorem storeBytes_getD (m : Memory) (o v : Nat) (hlen : o + 31 < m.length) :
    ∀ n, n ≤ 32 → ∀ j, j < 32 →
      (storeBytes m o v n).getD (o + j) none =
        (if 31 - j < n then some (v / 2 ^ ((31 - j) * 8) % 256)
         else m.getD (o + j) none) := by
  intro n
  induction n with
  | zero =>
      intro _ j hj
      simp [storeBytes]
  | succ k ih =>
      intro hk j hj
      have hk31 : k ≤ 31 := by omega
      by_cases hje : j = 31 - k
      · have hidx : o + j = o + 31 - k := by omega
        have hcond : 31 - j = k := by omega
        simp only [storeBytes]
        rw [hidx]
        rw [List.getD_eq_getElem _ _
          (by rw [List.length_set, storeBytes_length]; omega)]
        rw [List.getElem_set_self]
        rw [and_shift_mask, hcond]
        rw [if_pos (by omega)]
      · have hne : o + 31 - k ≠ o + j := by omega
        simp only [storeBytes]
        rw [List.getD_eq_getD_get?, List.get?_eq_getElem?,
          List.getElem?_set_ne hne, ← List.get?_eq_getElem?,
          ← List.getD_eq_getD_get?]
        rw [ih (by omega) j hj]
        split_ifs with h1 h2 h3
        · rfl
        · omega
        · omega
        · rfl

theorem loadAcc_stored (m' : Memory) (o w : Nat) (hw : w < 2 ^ 256)
    (hbytes : ∀ j, j < 32 → m'.getD (o + j) none = some (w / 2 ^ ((31 - j) * 8) % 256)) :
    ∀ n, n ≤ 32 → loadAcc m' o n = .ok (w / 2 ^ ((32 - n) * 8)) := by
  intro n
  induction n with
  | zero =>
      intro _
      simp [loadAcc]
      rw [Nat.div_eq_of_lt (by omega)]
  | succ k ih =>
      intro hk
      have hk31 : k ≤ 31 := by omega
      simp only [loadAcc, bind, Except.bind]
      rw [ih (by omega)]
      rw [hbytes k (by omega)]
      have hsp : (32 - k) * 8 = (31 - k) * 8 + 8 := by omega
      have hdd : w / 2 ^ ((32 - k) * 8) = w / 2 ^ ((31 - k) * 8) / 256 := by
        rw [hsp, pow_add, ← Nat.div_div_eq_div_mul]
        norm_num
      have hrk : (32 - (k + 1)) * 8 = (31 - k) * 8 := by omega
      rw [hdd, hrk]
      have := Nat.div_add_mod (w / 2 ^ ((31 - k) * 8)) 256
      simp only [pure, Except.pure, Except.ok.injEq]
      omega

end Memory

end EvmFS

namespace EvmFS

/-- C6: Memory word round-trip: for every offset o below 2^256 and every
Word w, store_word(o, w) succeeds, expands memory to cover byte o + 31,
keeps the length a multiple of 32, and a subsequent load(o) returns w
(leaving the memory unchanged). -/
theorem c6_store_word_load_roundtrip (m : Memory) (o w : Nat)
    (ho : o < 2 ^ 256) (hw : w < 2 ^ 256) (hm : m.length % 32 = 0) :
    ∃ m', Memory.store_word m (some o) (some w) = .ok m' ∧
      o + 31 < m'.length ∧ m'.length % 32 = 0 ∧
      Memory.load m' (some o) = .ok (w, m') := by
  classical
  have h1 : ¬ (MAX_UINT256 < o) := by simp only [MAX_UINT256]; omega
  have h2 : ¬ (MAX_UINT256 < w) := by simp only [MAX_UINT256]; omega
  refine ⟨Memory.storeBytes (Memory.check_expand m (o + 31)) o w 32, ?_, ?_, ?_, ?_⟩
  · simp [Memory.store_word, h1, h2]
  · rw [Memory.storeBytes_length]
    exact Memory.lt_check_expand_length m (o + 31)
  · rw [Memory.storeBytes_length]
    exact Memory.check_expand_mod32 _ hm
  · have hcov : o + 31 < (Memory.check_expand m (o + 31)).length :=
      Memory.lt_check_expand_length m (o + 31)
    have hlen : (Memory.storeBytes (Memory.check_expand m (o + 31)) o w 32).length =
        (Memory.check_expand m (o + 31)).length := Memory.storeBytes_length _ _ _ _
    have hbytes : ∀ j, j < 32 →
        (Memory.storeBytes (Memory.check_expand m (o + 31)) o w 32).getD (o + j) none =
          some (w / 2 ^ ((31 - j) * 8) % 256) := by
      intro j hj
      rw [Memory.storeBytes_getD _ o w hcov 32 le_rfl j hj]
      rw [if_pos (by omega)]
    simp only [Memory.load, h1, Option.any_some, decide_eq_true_eq, if_neg h1]
    rw [Memory.check_expand_eq_self (by omega)]
    rw [Memory.loadAcc_stored _ o w hw hbytes 32 le_rfl]
    simp

/-- Witness for C6 at m = [], o = 5, w = 3. -/
theorem c6_store_word_load_roundtrip_witness :
    5 < 2 ^ 256 ∧ 3 < 2 ^ 256 ∧ ([] : Memory).length % 32 = 0 ∧
      (∃ m', Memory.store_word [] (some 5) (some 3) = .ok m' ∧
        5 + 31 < m'.length ∧ m'.length % 32 = 0 ∧
        Memory.load m' (some 5) = .ok (3, m')) :=
  ⟨by norm_num, by norm_num, rfl,
    c6_store_word_load_roundtrip [] 5 3 (by norm_num) (by norm_num) rfl⟩

end EvmFS

namespace EvmFS

/-- A concrete configuration (trivial external primitives) used by the
concrete runs below. -/
def cfgZero : Config := { keccak := fun _ => 0, createDigest := fun _ _ => 0 }

/-- Unfolding of the STOP handler. -/
theorem step_stop (cfg : Config)
    (subEvm : List Nat → Option Tx → Option WorldState → Option Block →
      Except Err EvmResult)
    (code : List Nat) (tx : Option Tx) (ws0 : Option WorldState)
    (blk : Option Block) (pc : Nat) (mc : Machine)
    (hop : code.getD pc 0 = 0x00) :
    step cfg subEvm code tx ws0 blk pc mc =
      .ok (.done
        { stack := mc.stack,
          returnData :=
            if pc = code.length - 1 then { mc.returnData with success := some true }
            else mc.returnData }) := by
  unfold step
  rw [hop]

/-- C3: executing STOP at program counter pc returns the current stack
with a return envelope whose success field is some true exactly when pc is
the index of the last byte of code and none otherwise, the return field
none in both cases (the envelope is still untouched when a STOP runs,
since only the terminating handlers write to it). -/
theorem c3_stop_success_iff_last_byte (cfg : Config)
    (subEvm : List Nat → Option Tx → Option WorldState → Option Block →
      Except Err EvmResult)
    (code : List Nat) (tx : Option Tx) (ws0 : Option WorldState)
    (blk : Option Block) (pc : Nat) (mc : Machine)
    (_hpc : pc < code.length) (hop : code.getD pc 0 = 0x00)
    (hrd : mc.returnData = { success := none, ret := none }) :
    step cfg subEvm code tx ws0 blk pc mc =
      .ok (.done
        { stack := mc.stack,
          returnData :=
            { success := if pc = code.length - 1 then some true else none,
              ret := none } }) := by
  rw [step_stop cfg subEvm code tx ws0 blk pc mc hop, hrd]
  by_cases h : pc = code.length - 1
  · rw [if_pos h, if_pos h]
  · rw [if_neg h, if_neg h]

/-- Witness for C3: a STOP as the only (hence last) byte of code. -/
theorem c3_stop_witness :
    (0 < ([0x00] : List Nat).length) ∧ (([0x00] : List Nat).getD 0 0 = 0x00) ∧
    ((initMachine none none).returnData = { success := none, ret := none }) ∧
    step cfgZero (evm cfgZero 1) [0x00] none none none 0 (initMachine none none) =
      .ok (.done
        { stack := (initMachine none none).stack,
          returnData :=
            { success := if 0 = ([0x00] : List Nat).length - 1 then some true else none,
              ret := none } }) :=
  ⟨by decide, rfl, rfl,
    c3_stop_success_iff_last_byte cfgZero (evm cfgZero 1) [0x00] none none none 0
      (initMachine none none) (by decide) rfl rfl⟩

/-- The required opcode table of section 6 of the specification. -/
def requiredOpcodes : List Nat :=
  [0x00] ++ List.range' 0x01 7 ++ List.range' 0x10 11 ++ [0x20] ++
    List.range' 0x30 13 ++ List.range' 0x41 7 ++ List.range' 0x50 10 ++
    [0x5b] ++ List.range' 0x60 32 ++ List.range' 0x80 5 ++ List.range' 0x90 3 ++
    [0xf0, 0xf1, 0xf3, 0xfd]

set_option maxHeartbeats 3200000 in
/-- C7: fetching an opcode byte that is not in the required table makes
the invocation fail with the invalid-opcode error (the throw of the
default case), whatever the rest of the machine state is. -/
theorem c7_unlisted_opcode_fails (cfg : Config)
    (subEvm : List Nat → Option Tx → Option WorldState → Option Block →
      Except Err EvmResult)
    (code : List Nat) (tx : Option Tx) (ws0 : Option WorldState)
    (blk : Option Block) (pc : Nat) (mc : Machine)
    (hb : code.getD pc 0 < 256) (hnot : code.getD pc 0 ∉ requiredOpcodes) :
    step cfg subEvm code tx ws0 blk pc mc = .error .unimplementedOpcode := by
  unfold step
  generalize code.getD pc 0 = b at hb hnot ⊢
  interval_cases b <;>
    first
      | exact absurd (by decide) hnot
      | rfl

/-- Witness for C7 at opcode 0x08 (ADDMOD, not in the required set). -/
theorem c7_unlisted_opcode_witness :
    (([0x08] : List Nat).getD 0 0 < 256) ∧
    (([0x08] : List Nat).getD 0 0 ∉ requiredOpcodes) ∧
    step cfgZero (evm cfgZero 1) [0x08] none none none 0 (initMachine none none) =
      .error .unimplementedOpcode :=
  ⟨by decide, by decide,
    c7_unlisted_opcode_fails cfgZero (evm cfgZero 1) [0x08] none none none 0
      (initMachine none none) (by decide) (by decide)⟩

end EvmFS

namespace EvmFS

set_option maxRecDepth 40000

/-- PUSH1 0x01; PUSH32 2^255; SDIV; STOP.  The top operand is 2^255 (the
most negative 256-bit signed value), the second operand 1. -/
def c1SdivCode : List Nat := [0x60, 0x01, 0x7f, 0x80] ++ List.replicate 31 0 ++ [0x05, 0x00]

/-- PUSH1 0x00; PUSH32 2^255; SLT; STOP. -/
def c1SltCode : List Nat := [0x60, 0x00, 0x7f, 0x80] ++ List.replicate 31 0 ++ [0x12, 0x00]

/-- C1 fails on the code: the signed opcodes narrow to 32-bit (not
256-bit) two's complement via BigInt.asIntN(32, _).  Under the claimed
256-bit reading, sdiv(2^255, 1) is 2^255 and slt(2^255, 0) is 1; the code
narrows 2^255 to asIntN(32, 2^255) = 0 and pushes 0 in both runs. -/
theorem c1_signed_ops_narrow_to_32_bits :
    evm cfgZero 50 c1SdivCode none none none =
      .ok { stack := [some 0], returnData := { success := some true, ret := none } } ∧
    evm cfgZero 50 c1SltCode none none none =
      .ok { stack := [some 0], returnData := { success := some true, ret := none } } :=
  ⟨rfl, rfl⟩

/-- PUSH1 0x04; JUMP; STOP; PUSH1 0x2a; STOP — the jump destination 4
holds the PUSH1 opcode. -/
def c2Code : List Nat := [0x60, 0x04, 0x56, 0x00, 0x60, 0x2a, 0x00]

/-- C2 fails on the code: after the JUMP handler the loop increment makes
the next fetched byte code[dest + 1], not code[dest].  Jumping to 4 in
c2Code therefore fetches the immediate byte 0x2a as an opcode and the
invocation dies with the invalid-opcode error; resuming the dispatch loop
at pc = 4 instead (as the claim prescribes) executes PUSH1 0x2a; STOP and
returns the stack [42] with success. -/
theorem c2_jump_fetches_dest_plus_one :
    evm cfgZero 50 c2Code none none none = .error .unimplementedOpcode ∧
    evmLoop cfgZero 50 c2Code none none none 4
      { stack := [], memory := [], storage := Storage.empty, state := [],
        calldata := [], returnData := { success := none, ret := none } } =
      .ok { stack := [some 0x2a], returnData := { success := some true, ret := none } } :=
  ⟨rfl, rfl⟩

/-- A world state holding one account at address 0x…aa whose runtime code
is the single byte 0x01 (ADD), which underflows the empty stack of the
child. -/
def c4State : WorldState :=
  [("0x00000000000000000000000000000000000000aa",
    { balance := "0x00", codeAsm := "", codeBin := "01", nonce := "0x00",
      storage := "0x00" })]

/-- Seven PUSH1 arguments (retSize, retOffset, argsSize, argsOffset,
value, address 0xaa, gas), then CALL, then STOP. -/
def c4Code : List Nat :=
  [0x60, 0, 0x60, 0, 0x60, 0, 0x60, 0, 0x60, 0, 0x60, 0xaa, 0x60, 0, 0xf1, 0x00]

/-- C4 fails on the code: there is no try/catch around the sub-invocation
of CALL, so the stack-underflow error of the child propagates out of the
parent and the whole invocation fails; the claimed behavior (success =
false observed by the parent, 0 pushed, execution continuing to the final
STOP) would instead end in .ok with stack [0]. -/
theorem c4_child_error_propagates :
    evm cfgZero 50 c4Code none (some c4State) none = .error .stackUnderflow :=
  rfl

/-- C5 fails on the code: a PUSHn with fewer than n immediate bytes left
reads past the end of code, obtains undefined, and BigInt(undefined)
(PUSH1) or undefined.toString(16) (PUSH2..32) throws a TypeError instead
of zero-filling the missing bytes. -/
theorem c5_truncated_push_throws :
    evm cfgZero 50 [0x60] none none none = .error .typeError ∧
    evm cfgZero 50 [0x61, 0x05] none none none = .error .typeError :=
  ⟨rfl, rfl⟩

/-- C8 fails on the code: DUP1 on an empty stack reads stack[0] =
undefined and pushes it (both comparisons of the push guard are false on
undefined), so after the DUP1 boundary the stack holds an element that is
not a Word; the run ends normally with that undefined still on the
stack. -/
theorem c8_dup1_pushes_undefined :
    evm cfgZero 50 [0x80, 0x00] none none none =
      .ok { stack := [none], returnData := { success := some true, ret := none } } :=
  rfl

/-- PUSH1 0xab; PUSH1 0x01; MSTORE8; PUSH1 0x02; PUSH1 0x00; SHA3; STOP:
memory bytes 0..1 are 0x00 0xab and SHA3 is asked to hash the 2 bytes at
offset 0. -/
def c9Code : List Nat :=
  [0x60, 0xab, 0x60, 0x01, 0x53, 0x60, 0x02, 0x60, 0x00, 0x20, 0x00]

/-- A Keccak probe that answers 1 exactly on the byte string the claim
says must be hashed (the two bytes 0x00 0xab of memory). -/
def c9SpecProbe : Config :=
  { keccak := fun bs => if bs = [0x00, 0xab] then 1 else 0,
    createDigest := fun _ _ => 0 }

/-- A Keccak probe that answers 1 exactly on the single byte 0xab. -/
def c9ActualProbe : Config :=
  { keccak := fun bs => if bs = [0xab] then 1 else 0,
    createDigest := fun _ _ => 0 }

/-- C9 fails on the code: the SHA3 handler re-encodes the shifted word
with toString(16), which drops the leading zero byte, so the byte string
handed to the Keccak primitive for offset 0, size 2 over memory
0x00 0xab … is [0xab] and not the two-byte slice [0x00, 0xab]: a keccak
oracle recognising the claimed slice is never called on it (digest 0
pushed), while one recognising [0xab] is (digest 1 pushed). -/
theorem c9_sha3_hashes_reencoded_bytes :
    evm c9SpecProbe 50 c9Code none none none =
      .ok { stack := [some 0], returnData := { success := some true, ret := none } } ∧
    evm c9ActualProbe 50 c9Code none none none =
      .ok { stack := [some 1], returnData := { success := some true, ret := none } } :=
  ⟨rfl, rfl⟩

end EvmFS

namespace EvmFS

/-- C10: the CREATE handler inserts the new account into the world state
unconditionally — also when the sub-invocation reverts (success = some
false) — with the returned bytes of the sub-invocation recorded as the
runtime code of the account and the popped value (in decimal string form,
a.toString()) as its balance, and pushes 0 onto the stack of the caller;
the insertion is not rolled back. -/
theorem c10_create_inserts_account_on_revert (cfg : Config)
    (subEvm : List Nat → Option Tx → Option WorldState → Option Block →
      Except Err EvmResult)
    (code : List Nat) (tx : Option Tx) (ws0 : Option WorldState)
    (blk : Option Block) (pc : Nat) (mc : Machine)
    (a : Nat) (b c : JsVal) (rest : Stack) (t : Tx)
    (bytes : List Nat) (result : EvmResult)
    (hop : code.getD pc 0 = 0xf0)
    (hstk : mc.stack = some a :: b :: c :: rest)
    (htx : tx = some t)
    (hbytes : Memory.load_byte_seq mc.memory b (jsCount c) = .ok bytes)
    (hsub : subEvm (hexPairsToBytes (bytesToHex bytes).data) tx ws0 blk = .ok result)
    (hfail : result.returnData.success = some false)
    (hcap : rest.length + 1 ≤ 1024) :
    step cfg subEvm code tx ws0 blk pc mc =
      .ok (.next pc
        { mc with
          stack := some 0 :: rest,
          state := State.createAccount mc.state
            ("0x" ++ padStart (natToHex (cfg.createDigest t.to_
              (jsNumberOfString (State.accountState mc.state t.to_).nonce) % 2 ^ 160)) 40 '0')
            { balance := Nat.repr a, codeAsm := "",
              codeBin := match result.returnData.ret with
                | some r => r
                | none => "0x00",
              nonce := "0x00", storage := "0x00" } }) := by
  subst htx
  unfold step
  rw [hop, hstk]
  simp only [Stack.pop, reqTx, Except.bind, bind, pure, Except.pure]
  rw [hbytes]
  simp only [Except.bind]
  rw [hsub]
  simp only [asBig, Except.bind, hfail]
  simp only [Stack.push, Option.any_some, MAX_UINT256]
  norm_num
  rw [if_neg (by omega : ¬ 1024 < List.length rest + 1)]

/-- The transaction of the C10 witness run. -/
def c10tx : Tx :=
  { to_ := "0x00", from_ := "0x00", origin := "0x00",
    gasprice := "0x00", value := "0x00", data := "" }

/-- PUSH1 5; PUSH1 14; PUSH1 0; CODECOPY; PUSH1 5; PUSH1 0; PUSH1 7;
CREATE; STOP; then the five bytes of creation code
PUSH1 0; PUSH1 0; REVERT at offset 14. -/
def c10Code : List Nat :=
  [0x60, 0x05, 0x60, 0x0e, 0x60, 0x00, 0x39,
   0x60, 0x05, 0x60, 0x00, 0x60, 0x07, 0xf0, 0x00,
   0x60, 0x00, 0x60, 0x00, 0xfd]

/-- The 32-byte memory holding the creation code at offsets 0..4, as the
CODECOPY of c10Code leaves it. -/
def c10MemBefore : Memory :=
  ([0x60, 0x00, 0x60, 0x00, 0xfd].map some) ++ List.replicate 27 (some 0)

/-- The machine just before the CREATE of c10Code runs (pc = 13): value 7
on top, then offset 0, then size 5. -/
def c10Before : Machine :=
  { stack := [some 7, some 0, some 5], memory := c10MemBefore,
    storage := Storage.empty, state := [], calldata := [],
    returnData := { success := none, ret := none } }

/-- The result of the reverting creation-code run of the C10 witness. -/
def c10ChildResult : EvmResult :=
  { stack := [], returnData := { success := some false, ret := some "" } }

/-- Witness for C10: the CREATE of c10Code, whose creation code reverts;
the account lands in the world state with balance "7" (the decimal
rendering of the popped value 7) and the reverted (empty) return string
as code, and 0 is pushed. -/
theorem c10_create_witness :
    (c10Code.getD 13 0 = 0xf0) ∧
    (c10Before.stack = some 7 :: some 0 :: some 5 :: []) ∧
    (Memory.load_byte_seq c10Before.memory (some 0) (jsCount (some 5)) =
      .ok [0x60, 0x00, 0x60, 0x00, 0xfd]) ∧
    (evm cfgZero 10 (hexPairsToBytes (bytesToHex [0x60, 0x00, 0x60, 0x00, 0xfd]).data)
      (some c10tx) none none = .ok c10ChildResult) ∧
    (c10ChildResult.returnData.success = some false) ∧
    (List.length ([] : Stack) + 1 ≤ 1024) ∧
    step cfgZero (evm cfgZero 10) c10Code (some c10tx) none none 13 c10Before =
      .ok (.next 13
        { c10Before with
          stack := [some 0],
          state := [("0x0000000000000000000000000000000000000000",
            { balance := "7", codeAsm := "", codeBin := "", nonce := "0x00",
              storage := "0x00" })] }) :=
  ⟨rfl, rfl, rfl, rfl, rfl, by norm_num,
    c10_create_inserts_account_on_revert cfgZero (evm cfgZero 10) c10Code
      (some c10tx) none none 13 c10Before 7 (some 0) (some 5) [] c10tx
      [0x60, 0x00, 0x60, 0x00, 0xfd] c10ChildResult rfl rfl rfl rfl rfl rfl
      (by norm_num)⟩

end EvmFS
